import Mathlib

/-!
Verification development for the SpotiFLAC download orchestrator.

The Go sources are shallowly embedded:
* `DownloadTrack` (the Wails `App` method in the main package) becomes a pure
  Lean function over an explicit `Env` of external collaborators (filesystem
  stat, provider clients, SongLink/Deezer resolution, Spotify metadata) and
  returns, besides the `DownloadResponse` and the Go `error`, the ordered
  trace of side effects it performed (queue transitions, stats, deletes,
  provider invocations, spawned background tasks).
* `CheckFilesExistence` becomes a pure per-track check plus an explicit
  model (`assemble`) of the index-tagged channel collection loop, so that
  order-independence of the concurrent fan-out can be stated.
* The Spotify auth client's `clearTokens` / `Logout` / `IsAuthenticated`
  become explicit state passing over `SpotifyAuthState`.

Functions of the `backend` package whose sources are not part of this
repository snapshot (`BuildExpectedFilename`, `NormalizePath`, the queue
tracker) are treated as environment parameters, except the queue tracker,
which is modelled from the spec (see `applyQueueEvent`).
-/

namespace SpotiFLAC

/-! ## String helpers

Structural (kernel-reducible) counterparts of the Go `strings` functions the
orchestrator uses.  Lean's built-in `String.startsWith` is implemented with
byte-position recursion that does not reduce in the kernel, so we recurse on
the character list instead. -/

/-- Embeds Go `strings.HasPrefix`. -/
def strStartsWith (s pre : String) : Bool :=
  pre.data.isPrefixOf s.data

/-- Embeds Go `strings.HasSuffix`. -/
def strEndsWith (s suf : String) : Bool :=
  suf.data.isSuffixOf s.data

/-- Drop the first `n` characters (used for Go `strings.TrimPrefix` under a
`HasPrefix` guard). -/
def strDrop (s : String) (n : Nat) : String :=
  ⟨s.data.drop n⟩

/-- Embeds Go `strings.TrimSuffix`. -/
def trimSuffix (s suf : String) : String :=
  if strEndsWith s suf then ⟨s.data.take (s.data.length - suf.data.length)⟩ else s

/-- Embeds Go `path/filepath.Join` for a directory with no trailing
separator joined to a plain file name. -/
def joinPath (dir name : String) : String :=
  dir ++ "/" ++ name

/-! ## ISRC validation (`isValidISRC`, main package)

The Go source compiles the regular expression
`^[A-Z]{2}[A-Z0-9]{3}\d{2}\d{5}$` and `isValidISRC` tests a full match. -/

/-- Character class `[A-Z]`. -/
def isUpperAZ (c : Char) : Bool :=
  'A' ≤ c && c ≤ 'Z'

/-- Character class `\d` = `[0-9]`. -/
def isDigit09 (c : Char) : Bool :=
  '0' ≤ c && c ≤ '9'

/-- Character class `[A-Z0-9]`. -/
def isUpperAlnum (c : Char) : Bool :=
  isUpperAZ c || isDigit09 c

/-- Full anchored match of `[A-Z]{2}[A-Z0-9]{3}\d{2}\d{5}`: exactly two
uppercase letters, three uppercase alphanumerics, two digits, five digits. -/
def matchISRCChars : List Char → Bool
  | [a, b, c, d, e, f, g, h, i, j, k, l] =>
    isUpperAZ a && isUpperAZ b &&
    isUpperAlnum c && isUpperAlnum d && isUpperAlnum e &&
    isDigit09 f && isDigit09 g &&
    isDigit09 h && isDigit09 i && isDigit09 j && isDigit09 k && isDigit09 l
  | _ => false

/-- Embeds `isValidISRC` from the main package: `isrcRegex.MatchString`. -/
def isValidISRC (isrc : String) : Bool :=
  matchISRCChars isrc.data

/-- Modelled from the spec: "a 12-character code matching
`^[A-Z]{2}[A-Z0-9]{3}\d{7}$` (2 letters, 3 alphanumerics, 7 digits)".
Stated independently of the source regex so the two can be compared. -/
def specPatternChars : List Char → Bool
  | [a, b, c, d, e, f, g, h, i, j, k, l] =>
    isUpperAZ a && isUpperAZ b &&
    isUpperAlnum c && isUpperAlnum d && isUpperAlnum e &&
    isDigit09 f && isDigit09 g && isDigit09 h && isDigit09 i &&
    isDigit09 j && isDigit09 k && isDigit09 l
  | _ => false

/-- Modelled from the spec: a valid ISRC is a 12-character string matching
the spec pattern. -/
def specValidISRC (s : String) : Bool :=
  decide (s.length = 12) && specPatternChars s.data

/-! ## Data model (main package structs) -/

/-- Embeds the Go `DownloadRequest` struct.  Field defaults are the Go zero
values (the JSON `omitempty` defaults). -/
structure DownloadRequest where
  isrc : String := ""
  service : String := ""
  query : String := ""
  trackName : String := ""
  artistName : String := ""
  albumName : String := ""
  albumArtist : String := ""
  releaseDate : String := ""
  coverURL : String := ""
  apiURL : String := ""
  outputDir : String := ""
  audioFormat : String := ""
  filenameFormat : String := ""
  trackNumber : Bool := false
  position : Int := 0
  useAlbumTrackNumber : Bool := false
  spotifyID : String := ""
  embedLyrics : Bool := false
  embedMaxQualityCover : Bool := false
  serviceURL : String := ""
  duration : Int := 0
  itemID : String := ""
  spotifyTrackNumber : Int := 0
  spotifyDiscNumber : Int := 0
  spotifyTotalTracks : Int := 0
  spotifyTotalDiscs : Int := 0
  copyright : String := ""
  publisher : String := ""
  deriving Repr, DecidableEq

/-- Embeds the Go `DownloadResponse` struct. -/
structure DownloadResponse where
  success : Bool := false
  message : String := ""
  file : String := ""
  error : String := ""
  alreadyExists : Bool := false
  itemID : String := ""
  deriving Repr, DecidableEq

/-- The track-metadata fields `DownloadTrack` unmarshals from
`GetFilteredSpotifyData` during the backfill step. -/
structure TrackMeta where
  copyright : String := ""
  publisher : String := ""
  totalDiscs : Int := 0
  totalTracks : Int := 0
  trackNumber : Int := 0
  releaseDate : String := ""
  deriving Repr, DecidableEq

/-- Argument record of `backend.BuildExpectedFilename` (backend source not
in this snapshot; the function itself is an environment parameter). -/
structure FilenameArgs where
  trackName : String
  artistName : String
  albumName : String
  albumArtist : String
  releaseDate : String
  filenameFormat : String
  includeTrackNumber : Bool
  position : Int
  discNumber : Int
  useAlbumTrackNumber : Bool
  deriving Repr, DecidableEq

/-- Identifies which provider-strategy entry point `DownloadTrack` invokes,
together with the identifier it passes (the remaining arguments are the
request's naming/tagging fields). -/
inductive ProviderCall
  | amazonByURL (serviceURL : String)
  | amazonBySpotifyID (spotifyID : String)
  | tidalFallbackByURL (serviceURL : String)
  | tidalFallbackBySpotifyID (spotifyID : String)
  | tidalFixedByURL (apiURL serviceURL : String)
  | tidalFixedBySpotifyID (apiURL spotifyID : String)
  | qobuzByISRC (isrc quality : String)
  deriving Repr, DecidableEq

/-- One side effect performed by `DownloadTrack`, in program order. -/
inductive Event
  | addToQueue (itemID trackName artistName albumName spotifyID : String)
  | setDownloading (active : Bool)
  | startItem (itemID : String)
  | metadataFetch (url : String)
  | statFile (path : String)
  | skipItem (itemID path : String)
  | providerCall (c : ProviderCall)
  | songlinkLookup (spotifyID : String)
  | deezerISRCLookup (url : String)
  | failItem (itemID msg : String)
  | removeFile (path : String)
  | completeItem (itemID path : String)
  | spawnLyrics (path : String)
  | spawnHistory (path : String)
  deriving Repr, DecidableEq

/-- True exactly for `Event.providerCall`. -/
def Event.isProviderCall : Event → Bool
  | .providerCall _ => true
  | _ => false

/-- True exactly for `Event.addToQueue`. -/
def Event.isAddToQueue : Event → Bool
  | .addToQueue .. => true
  | _ => false

/-- True exactly for `Event.songlinkLookup`. -/
def Event.isSonglinkLookup : Event → Bool
  | .songlinkLookup _ => true
  | _ => false

/-- True exactly for `Event.metadataFetch`. -/
def Event.isMetadataFetch : Event → Bool
  | .metadataFetch _ => true
  | _ => false

/-- True exactly for `Event.statFile`. -/
def Event.isStatFile : Event → Bool
  | .statFile _ => true
  | _ => false

/-- True exactly for `Event.failItem`. -/
def Event.isFailItem : Event → Bool
  | .failItem .. => true
  | _ => false

/-- True exactly for the provider/SongLink/Deezer external-call effects —
the only effects a strategy dispatch can produce. -/
def Event.isExternalCall : Event → Bool
  | .providerCall _ => true
  | .songlinkLookup _ => true
  | .deezerISRCLookup _ => true
  | _ => false

/-- External collaborators of the orchestrator.  `fs p` is the result of
`os.Stat p` (the file's size when it exists); `provider` is the outcome
`(filename, error)` of a provider-strategy invocation; `metadata` is the
(parsed) result of `backend.GetFilteredSpotifyData` on a track URL, `none`
meaning the fetch or the JSON round-trip failed; `removeResult p` is the
error of `os.Remove p`, which the code only logs. -/
structure Env where
  fs : String → Option Int
  nowNano : Int
  normalizePath : String → String
  buildExpectedFilename : FilenameArgs → String
  metadata : String → Option TrackMeta
  provider : ProviderCall → String × Option String
  songlinkDeezerURL : String → Except String String
  deezerISRC : String → Except String String
  removeResult : String → Option String

/-- `os.Stat` returned no error and the size exceeds `n` bytes
(the code's `err == nil && fileInfo.Size() > 100*1024` pattern). -/
def fileLargerThan (fs : String → Option Int) (p : String) (n : Int) : Bool :=
  match fs p with
  | some sz => decide (n < sz)
  | none => false

/-! ## `DownloadTrack` embedding (main package, lines 187-527) -/

/-- The fail-fast validation at the top of `DownloadTrack`:
`req.Service == "qobuz" && req.ISRC == "" && req.SpotifyID == ""`. -/
abbrev earlyQobuzReject (req : DownloadRequest) : Prop :=
  req.service = "qobuz" ∧ req.isrc = "" ∧ req.spotifyID = ""

/-- The defaulting block: missing service → "tidal", missing output dir →
"." (otherwise `backend.NormalizePath`), missing audio format → "LOSSLESS",
missing filename format → "title-artist".  The Go code applies these four
assignments sequentially; each condition reads only the field it assigns, so
the sequence equals this simultaneous update. -/
def applyDefaults (env : Env) (req : DownloadRequest) : DownloadRequest :=
  { req with
    service := if req.service = "" then "tidal" else req.service
    outputDir := if req.outputDir = "" then "." else env.normalizePath req.outputDir
    audioFormat := if req.audioFormat = "" then "LOSSLESS" else req.audioFormat
    filenameFormat := if req.filenameFormat = "" then "title-artist" else req.filenameFormat }

/-- The item identifier: the caller's `ItemID` when supplied, otherwise
synthesized from the Spotify ID (or track+artist) and `time.Now().UnixNano()`. -/
def resolvedItemID (env : Env) (req : DownloadRequest) : String :=
  if req.itemID = "" then
    if req.spotifyID ≠ "" then req.spotifyID ++ "-" ++ toString env.nowNano
    else req.trackName ++ "-" ++ req.artistName ++ "-" ++ toString env.nowNano
  else req.itemID

/-- `https://open.spotify.com/track/<id>`. -/
def spotifyTrackURL (id : String) : String :=
  "https://open.spotify.com/track/" ++ id

/-- The guard of the metadata-backfill block: a Spotify ID is present and at
least one of the six descriptive fields is missing (Go zero value). -/
abbrev backfillTrigger (req : DownloadRequest) : Prop :=
  req.spotifyID ≠ "" ∧
    (req.copyright = "" ∨ req.publisher = "" ∨ req.spotifyTotalDiscs = 0 ∨
      req.releaseDate = "" ∨ req.spotifyTotalTracks = 0 ∨ req.spotifyTrackNumber = 0)

/-- The fill loop of the backfill block: each field is replaced only when the
request's value is the zero value and the fetched value is non-zero.  The Go
code applies the six assignments sequentially; each condition reads only the
field it assigns, so the sequence equals this simultaneous update. -/
def applyBackfill (req : DownloadRequest) (t : TrackMeta) : DownloadRequest :=
  { req with
    copyright := if req.copyright = "" ∧ t.copyright ≠ "" then t.copyright else req.copyright
    publisher := if req.publisher = "" ∧ t.publisher ≠ "" then t.publisher else req.publisher
    spotifyTotalDiscs :=
      if req.spotifyTotalDiscs = 0 ∧ t.totalDiscs > 0 then t.totalDiscs else req.spotifyTotalDiscs
    spotifyTotalTracks :=
      if req.spotifyTotalTracks = 0 ∧ t.totalTracks > 0 then t.totalTracks else req.spotifyTotalTracks
    spotifyTrackNumber :=
      if req.spotifyTrackNumber = 0 ∧ t.trackNumber > 0 then t.trackNumber else req.spotifyTrackNumber
    releaseDate :=
      if req.releaseDate = "" ∧ t.releaseDate ≠ "" then t.releaseDate else req.releaseDate }

/-- The whole backfill step: when triggered, fetch `GetFilteredSpotifyData`
for the track URL and fill absent fields; any failure leaves the request
untouched and the download proceeds. -/
def backfilled (env : Env) (req : DownloadRequest) : DownloadRequest :=
  if backfillTrigger req then
    match env.metadata (spotifyTrackURL req.spotifyID) with
    | some t => applyBackfill req t
    | none => req
  else req

/-- The network I/O of the backfill step (performed exactly when the guard
holds, whether or not the fetch succeeds). -/
def backfillEvents (req : DownloadRequest) : List Event :=
  if backfillTrigger req then [.metadataFetch (spotifyTrackURL req.spotifyID)] else []

/-- The argument tuple `DownloadTrack` passes to
`backend.BuildExpectedFilename`. -/
def filenameArgsOf (req : DownloadRequest) : FilenameArgs :=
  { trackName := req.trackName
    artistName := req.artistName
    albumName := req.albumName
    albumArtist := req.albumArtist
    releaseDate := req.releaseDate
    filenameFormat := req.filenameFormat
    includeTrackNumber := req.trackNumber
    position := req.position
    discNumber := req.spotifyDiscNumber
    useAlbumTrackNumber := req.useAlbumTrackNumber }

/-- `filepath.Join(req.OutputDir, expectedFilename)` of the existence
precheck. -/
def expectedPath (env : Env) (req : DownloadRequest) : String :=
  joinPath req.outputDir (env.buildExpectedFilename (filenameArgsOf req))

/-- The full guard of the existence short-circuit: both names known, a file
at the expected path, and its size strictly above 100 KiB. -/
abbrev precheckHit (env : Env) (req : DownloadRequest) : Prop :=
  req.trackName ≠ "" ∧ req.artistName ≠ "" ∧
    fileLargerThan env.fs (expectedPath env req) 102400 = true

/-- Outcome of the provider-strategy `switch`: either an early `return`
from inside the `switch` (its response, the Go error text, and the effects
performed so far), or `(filename, err)` from an actual strategy call. -/
inductive Dispatch
  | early (resp : DownloadResponse) (goErr : String) (events : List Event)
  | ran (filename : String) (err : Option String) (events : List Event)
  deriving Repr, DecidableEq

/-- The effect list of a dispatch outcome. -/
def Dispatch.events : Dispatch → List Event
  | .early _ _ evs => evs
  | .ran _ _ evs => evs

/-- An error response as built at the early `return` sites: only `Success`
and `Error` are set. -/
def mkErrorResponse (msg : String) : DownloadResponse :=
  { success := false, message := "", file := "", error := msg,
    alreadyExists := false, itemID := "" }

/-- Invoke one provider strategy. -/
def runProvider (env : Env) (c : ProviderCall) : Dispatch :=
  .ran (env.provider c).1 (env.provider c).2 [.providerCall c]

/-- Prepend effects already performed to a dispatch outcome. -/
def prependEvents (evs : List Event) : Dispatch → Dispatch
  | .early r g e => .early r g (evs ++ e)
  | .ran f err e => .ran f err (evs ++ e)

/-- The `case "qobuz"` branch: discard a caller ISRC that is not 12
characters or fails `isValidISRC`; derive one through SongLink + Deezer when
a Spotify ID is available; fail when no ISRC results; otherwise call
`DownloadByISRC`. -/
def qobuzDispatch (env : Env) (req : DownloadRequest) : Dispatch :=
  let quality := if req.audioFormat = "" then "6" else req.audioFormat
  let deezerISRC0 :=
    if req.isrc.length ≠ 12 ∨ isValidISRC req.isrc = false then "" else req.isrc
  if deezerISRC0 = "" ∧ req.spotifyID ≠ "" then
    match env.songlinkDeezerURL req.spotifyID with
    | .error e =>
        .early (mkErrorResponse ("Failed to get Deezer URL: " ++ e)) e
          [.songlinkLookup req.spotifyID]
    | .ok deezerURL =>
        match env.deezerISRC deezerURL with
        | .error e =>
            .early (mkErrorResponse ("Failed to get ISRC from Deezer: " ++ e)) e
              [.songlinkLookup req.spotifyID, .deezerISRCLookup deezerURL]
        | .ok derived =>
            if derived = "" then
              .early (mkErrorResponse "ISRC is required for Qobuz (could not fetch from Deezer)")
                "ISRC is required for Qobuz"
                [.songlinkLookup req.spotifyID, .deezerISRCLookup deezerURL]
            else
              prependEvents [.songlinkLookup req.spotifyID, .deezerISRCLookup deezerURL]
                (runProvider env (.qobuzByISRC derived quality))
  else
    if deezerISRC0 = "" then
      .early (mkErrorResponse "ISRC is required for Qobuz (could not fetch from Deezer)")
        "ISRC is required for Qobuz" []
    else
      runProvider env (.qobuzByISRC deezerISRC0 quality)

/-- The provider `switch` of `DownloadTrack` (services already defaulted). -/
def dispatchStrategy (env : Env) (req : DownloadRequest) : Dispatch :=
  if req.service = "amazon" then
    if req.serviceURL ≠ "" then runProvider env (.amazonByURL req.serviceURL)
    else if req.spotifyID = "" then
      .early (mkErrorResponse "Spotify ID is required for Amazon Music")
        "spotify ID is required for Amazon Music" []
    else runProvider env (.amazonBySpotifyID req.spotifyID)
  else if req.service = "tidal" then
    if req.apiURL = "" ∨ req.apiURL = "auto" then
      if req.serviceURL ≠ "" then runProvider env (.tidalFallbackByURL req.serviceURL)
      else if req.spotifyID = "" then
        .early (mkErrorResponse "Spotify ID is required for Tidal")
          "spotify ID is required for Tidal" []
      else runProvider env (.tidalFallbackBySpotifyID req.spotifyID)
    else
      if req.serviceURL ≠ "" then runProvider env (.tidalFixedByURL req.apiURL req.serviceURL)
      else if req.spotifyID = "" then
        .early (mkErrorResponse "Spotify ID is required for Tidal")
          "spotify ID is required for Tidal" []
      else runProvider env (.tidalFixedBySpotifyID req.apiURL req.spotifyID)
  else if req.service = "qobuz" then
    qobuzDispatch env req
  else
    .early (mkErrorResponse ("Unknown service: " ++ req.service))
      ("unknown service: " ++ req.service) []

/-- Result of the embedded `DownloadTrack`: the response, the Go `error`
second return value, and the ordered effect trace. -/
structure DownloadResult where
  resp : DownloadResponse
  goErr : Option String
  trace : List Event
  deriving Repr, DecidableEq

/-- Everything after the `switch` (lines 396-527): on a strategy error,
`FailDownloadItem`, best-effort delete of a non-`EXISTS:` partial file
(delete failure only logged), return the error; on success, handle the
`EXISTS:` sentinel (skip) or complete the item, spawning the lyrics and
history background tasks. -/
def runDispatchOutcome (env : Env) (itemID : String) (req : DownloadRequest) : DownloadResult :=
  match dispatchStrategy env req with
  | .early resp goErr evs =>
      { resp := resp, goErr := some goErr, trace := evs ++ [.setDownloading false] }
  | .ran filename errOpt evs =>
      match errOpt with
      | some e =>
          let cleanupEvs :=
            if filename ≠ "" ∧ strStartsWith filename "EXISTS:" = false then
              .statFile filename ::
                (match env.fs filename with
                 | some _ => [.removeFile filename]
                 | none => [])
            else []
          { resp := { success := false, message := "", file := "",
                      error := "Download failed: " ++ e, alreadyExists := false,
                      itemID := itemID },
            goErr := some e,
            trace := evs ++ [.failItem itemID ("Download failed: " ++ e)] ++ cleanupEvs
                      ++ [.setDownloading false] }
      | none =>
          let alreadyExists := strStartsWith filename "EXISTS:"
          let fname := if alreadyExists then strDrop filename 7 else filename
          let lyricsEvs :=
            if alreadyExists = false ∧ req.spotifyID ≠ "" ∧ req.embedLyrics = true ∧
                strEndsWith fname ".flac" = true then
              [Event.spawnLyrics fname]
            else []
          if alreadyExists then
            { resp := { success := true, message := "File already exists", file := fname,
                        error := "", alreadyExists := true, itemID := itemID },
              goErr := none,
              trace := evs ++ lyricsEvs ++ [.skipItem itemID fname, .setDownloading false] }
          else
            { resp := { success := true, message := "Download completed successfully",
                        file := fname, error := "", alreadyExists := false, itemID := itemID },
              goErr := none,
              trace := evs ++ lyricsEvs ++
                [.statFile fname, .completeItem itemID fname, .spawnHistory fname,
                 .setDownloading false] }

/-- The backfill step, the existence short-circuit and the strategy dispatch
(lines 239-527), given the registered item identifier. -/
def afterRegister (env : Env) (itemID : String) (req : DownloadRequest) : DownloadResult :=
  let req2 := backfilled env req
  let evs := backfillEvents req
  if req2.trackName ≠ "" ∧ req2.artistName ≠ "" then
    let p := expectedPath env req2
    if fileLargerThan env.fs p 102400 then
      { resp := { success := true, message := "File already exists", file := p,
                  error := "", alreadyExists := true, itemID := itemID },
        goErr := none,
        trace := evs ++ [.statFile p, .skipItem itemID p, .setDownloading false] }
    else
      let r := runDispatchOutcome env itemID req2
      { r with trace := evs ++ [.statFile p] ++ r.trace }
  else
    let r := runDispatchOutcome env itemID req2
    { r with trace := evs ++ r.trace }

/-- Embeds `DownloadTrack` (main package, lines 187-527). -/
def DownloadTrack (env : Env) (req0 : DownloadRequest) : DownloadResult :=
  if earlyQobuzReject req0 then
    { resp := mkErrorResponse "Spotify ID is required for Qobuz",
      goErr := some "spotify ID is required for Qobuz",
      trace := [] }
  else
    let req1 := applyDefaults env req0
    let itemID := resolvedItemID env req1
    let regEvs :=
      if req1.itemID = "" then
        [Event.addToQueue itemID req1.trackName req1.artistName req1.albumName req1.spotifyID]
      else []
    let r := afterRegister env itemID req1
    { r with trace := regEvs ++ [.setDownloading true, .startItem itemID] ++ r.trace }

/-! ## `CheckFilesExistence` embedding (main package, lines 1039-1117) -/

/-- Embeds the Go `CheckFileExistenceRequest` struct. -/
structure CheckFileExistenceRequest where
  spotifyID : String := ""
  trackName : String := ""
  artistName : String := ""
  albumName : String := ""
  albumArtist : String := ""
  releaseDate : String := ""
  trackNumber : Int := 0
  discNumber : Int := 0
  position : Int := 0
  useAlbumTrackNumber : Bool := false
  filenameFormat : String := ""
  includeTrackNumber : Bool := false
  audioFormat : String := ""
  deriving Repr, DecidableEq

/-- Embeds the Go `CheckFileExistenceResult` struct (`Exists` is rendered
as `fileExists`). -/
structure CheckFileExistenceResult where
  spotifyID : String := ""
  fileExists : Bool := false
  filePath : String := ""
  trackName : String := ""
  artistName : String := ""
  deriving Repr, DecidableEq

/-- The body of one goroutine of `CheckFilesExistence` (lines 1056-1107):
the per-track result, paired with whether an `os.Stat` was performed. -/
def checkOne (env : Env) (outputDir : String) (t : CheckFileExistenceRequest) :
    CheckFileExistenceResult × Bool :=
  let res : CheckFileExistenceResult :=
    { spotifyID := t.spotifyID, fileExists := false, filePath := "",
      trackName := t.trackName, artistName := t.artistName }
  if t.trackName = "" ∨ t.artistName = "" then (res, false)
  else
    let filenameFormat := if t.filenameFormat = "" then "title-artist" else t.filenameFormat
    let trackNumber := if t.useAlbumTrackNumber = true ∧ t.trackNumber > 0 then t.trackNumber else t.position
    let fileExt := if t.audioFormat = "mp3" then ".mp3" else ".flac"
    let base := env.buildExpectedFilename
      { trackName := t.trackName, artistName := t.artistName, albumName := t.albumName,
        albumArtist := t.albumArtist, releaseDate := t.releaseDate,
        filenameFormat := filenameFormat, includeTrackNumber := t.includeTrackNumber,
        position := trackNumber, discNumber := t.discNumber,
        useAlbumTrackNumber := t.useAlbumTrackNumber }
    let expectedFilename := trimSuffix base ".flac" ++ fileExt
    let p := joinPath outputDir expectedFilename
    match env.fs p with
    | some sz => if 102400 < sz then ({ res with fileExists := true, filePath := p }, true) else (res, true)
    | none => (res, true)

/-- Embeds `CheckFilesExistence`: empty input short-circuits; otherwise the
output directory is normalized once and the per-track checks are collected
back into input order (the concurrent collection loop is modelled separately
by `assemble`). -/
def CheckFilesExistence (env : Env) (outputDir : String)
    (tracks : List CheckFileExistenceRequest) : List CheckFileExistenceResult :=
  if tracks = [] then []
  else
    let od := env.normalizePath outputDir
    tracks.map (fun t => (checkOne env od t).1)

/-- The result-collection loop of `CheckFilesExistence`: a slot array of
length `n`, written at `results[r.index] = r.result` for each value received
from the channel, in an arbitrary completion order. -/
def assemble (n : Nat) (completions : List (Nat × CheckFileExistenceResult)) :
    List (Option CheckFileExistenceResult) :=
  completions.foldl (fun acc p => acc.set p.1 (some p.2)) (List.replicate n none)

/-! ## Queue/State Tracker model

Modelled from the spec: the Queue/State Tracker of §4.2 lives in the
`backend` package, which is not part of this snapshot.  Per the spec, the
state machine is `Queued → Downloading → {Completed, Skipped, Failed}` with
`Queued → Cancelled`, terminal states absorb every transition, and items are
created by `AddToQueue`. -/

/-- Lifecycle state of a `DownloadItem` (spec §3). -/
inductive ItemState
  | queued
  | downloading
  | completed
  | skipped
  | failed
  | cancelled
  deriving Repr, DecidableEq

/-- Terminal states (spec §4.2: Completed/Skipped/Failed/Cancelled are
terminal). -/
def ItemState.isTerminal : ItemState → Bool
  | .completed => true
  | .skipped => true
  | .failed => true
  | .cancelled => true
  | _ => false

/-- Modelled from the spec: how one orchestrator effect transitions the
tracker's item map.  Monotonic forward transitions; no transition out of a
terminal state; non-item effects leave the map unchanged. -/
def applyQueueEvent (m : String → Option ItemState) : Event → (String → Option ItemState)
  | .addToQueue id _ _ _ _ => fun x =>
      if x = id then (match m id with | none => some .queued | some s => some s) else m x
  | .startItem id => fun x =>
      if x = id then (match m id with | some .queued => some .downloading | other => other) else m x
  | .skipItem id _ => fun x =>
      if x = id then
        (match m id with
         | some s => if s.isTerminal then some s else some .skipped
         | none => none)
      else m x
  | .completeItem id _ => fun x =>
      if x = id then
        (match m id with
         | some s => if s.isTerminal then some s else some .completed
         | none => none)
      else m x
  | .failItem id _ => fun x =>
      if x = id then
        (match m id with
         | some s => if s.isTerminal then some s else some .failed
         | none => none)
      else m x
  | _ => m

/-- Run a whole effect trace through the tracker model. -/
def runQueue (m : String → Option ItemState) (trace : List Event) :
    String → Option ItemState :=
  trace.foldl applyQueueEvent m

/-- Does this effect transition the queue item `id`? -/
def touchesItem (id : String) : Event → Bool
  | .addToQueue i _ _ _ _ => i = id
  | .startItem i => i = id
  | .skipItem i _ => i = id
  | .completeItem i _ => i = id
  | .failItem i _ => i = id
  | _ => false

/-! ## Spotify auth client embedding (src/backend/spotify_auth.go) -/

/-- The token-holding fields of `SpotifyAuthClient` (the HTTP client, code
verifier and mutex are irrelevant to the claims).  `expiresAtZero` records
whether `expiresAt` is the zero `time.Time`. -/
structure SpotifyAuthState where
  accessToken : String := ""
  refreshToken : String := ""
  expiresAtUnix : Int := 0
  deriving Repr, DecidableEq

/-- External collaborators of `clearTokens`: `getTokenPath` (which can fail
when the config dir cannot be determined) and `os.Remove`. -/
structure AuthEnv where
  tokenPath : Except String String
  removeResult : String → Option String

/-- Embeds `clearTokens` (spotify_auth.go, lines 258-271): the in-memory
tokens are erased first, then the token file is removed; either the path
lookup error or the removal result is returned. -/
def clearTokens (env : AuthEnv) (_s : SpotifyAuthState) :
    SpotifyAuthState × Option String :=
  let cleared : SpotifyAuthState :=
    { accessToken := "", refreshToken := "", expiresAtUnix := 0 }
  match env.tokenPath with
  | .error e => (cleared, some e)
  | .ok p => (cleared, env.removeResult p)

/-- Embeds `Logout` (spotify_auth.go, lines 492-494). -/
def Logout (env : AuthEnv) (s : SpotifyAuthState) : SpotifyAuthState × Option String :=
  clearTokens env s

/-- Embeds `IsAuthenticated` (spotify_auth.go, lines 486-490). -/
def IsAuthenticated (s : SpotifyAuthState) : Bool :=
  s.accessToken ≠ "" && s.refreshToken ≠ ""

/-! ## Concrete fixtures for counterexamples and witnesses -/

/-- A concrete stand-in for `backend.BuildExpectedFilename` used by the
fixtures (`"<track> - <artist>.flac"`, the default `title-artist` shape). -/
def fixFilename (a : FilenameArgs) : String :=
  a.trackName ++ " - " ++ a.artistName ++ ".flac"

/-- Baseline fixture environment: empty filesystem, offline resolution
services, a provider that writes `/out/fresh.flac`. -/
def envBase : Env :=
  { fs := fun _ => none
    nowNano := 0
    normalizePath := fun s => s
    buildExpectedFilename := fixFilename
    metadata := fun _ => none
    provider := fun _ => ("/out/fresh.flac", none)
    songlinkDeezerURL := fun _ => .error "offline"
    deezerISRC := fun _ => .error "offline"
    removeResult := fun _ => none }

/-- Fixture: a file of exactly 100 KiB (102400 bytes) at the expected path. -/
def envC1 : Env :=
  { envBase with fs := fun p => if p = "/out/A - B.flac" then some 102400 else none }

/-- Fixture: a file strictly above 100 KiB at the expected path. -/
def envC1w : Env :=
  { envBase with fs := fun p => if p = "/out/A - B.flac" then some 200000 else none }

/-- Fixture request resolving its expected path to `/out/A - B.flac`. -/
def reqC1 : DownloadRequest :=
  { service := "tidal", serviceURL := "http://svc", trackName := "A",
    artistName := "B", outputDir := "/out", itemID := "item1" }

/-- Fixture request with an unrecognized service and a caller-supplied item. -/
def reqC2 : DownloadRequest :=
  { service := "whatever", itemID := "itemX", trackName := "T" }

/-- Initial tracker map: the caller already queued `itemX`. -/
def queueC2 : String → Option ItemState :=
  fun s => if s = "itemX" then some .queued else none

/-- Fixture: the provider strategy fails after writing `/out/partial.flac`,
which exists on disk. -/
def envProvErr : Env :=
  { envBase with
    provider := fun _ => ("/out/partial.flac", some "boom")
    fs := fun p => if p = "/out/partial.flac" then some 5000 else none }

/-- Fixture tidal request with a caller-supplied item `itemY`. -/
def reqC2w : DownloadRequest :=
  { service := "tidal", serviceURL := "http://svc", itemID := "itemY" }

/-- Initial tracker map: the caller already queued `itemY`. -/
def queueC2w : String → Option ItemState :=
  fun s => if s = "itemY" then some .queued else none

/-- Fixture: unknown service with no caller item identifier. -/
def reqC3 : DownloadRequest :=
  { service := "foo", trackName := "t" }

/-- Fixture: unknown service with a caller item identifier. -/
def reqC3w : DownloadRequest :=
  { service := "bar", itemID := "it3" }

/-- Fixture amazon request driven by a service URL. -/
def reqC4 : DownloadRequest :=
  { service := "amazon", serviceURL := "http://a", itemID := "it4" }

/-- Fixture qobuz request with neither ISRC nor Spotify ID. -/
def reqC5 : DownloadRequest :=
  { service := "qobuz" }

/-- Fixture: the file for track `X - Y` exists (in `out`), nothing else. -/
def envC6 : Env :=
  { envBase with fs := fun p => if p = "out/X - Y.flac" then some 200000 else none }

/-- Batch-check fixture tracks. -/
def trkA : CheckFileExistenceRequest :=
  { spotifyID := "s1", trackName := "X", artistName := "Y" }

/-- Batch-check fixture track with a different name. -/
def trkB : CheckFileExistenceRequest :=
  { spotifyID := "s2", trackName := "P", artistName := "Q" }

/-- Batch-check fixture track missing its track name. -/
def trkE : CheckFileExistenceRequest :=
  { spotifyID := "s3", trackName := "", artistName := "Z" }

/-- Fixture: the provider reports a server-side existing file via the
`EXISTS:` sentinel. -/
def envC7 : Env :=
  { envBase with provider := fun _ => ("EXISTS:/out/x.flac", none) }

/-- Fixture tidal request downloading by Spotify ID. -/
def reqC7 : DownloadRequest :=
  { service := "tidal", spotifyID := "sid7", itemID := "it7" }

/-- Fixture request with a caller-supplied copyright and a Spotify ID. -/
def reqC8 : DownloadRequest :=
  { spotifyID := "sid8", copyright := "KeepMe", itemID := "it8" }

/-- Fixture fetched metadata that would overwrite every field if allowed. -/
def metaC8 : TrackMeta :=
  { copyright := "Other", publisher := "Pub", totalDiscs := 2,
    totalTracks := 10, trackNumber := 3, releaseDate := "2020" }

/-- Fixture: SongLink and Deezer resolution succeed. -/
def envC9 : Env :=
  { envBase with
    songlinkDeezerURL := fun _ => .ok "https://deezer/1"
    deezerISRC := fun _ => .ok "USABC1234567" }

/-- Fixture qobuz request with an invalid ISRC and no Spotify ID. -/
def reqC9 : DownloadRequest :=
  { service := "qobuz", isrc := "BAD", itemID := "it9" }

/-- Fixture qobuz request with an invalid ISRC and a Spotify ID. -/
def reqC9w : DownloadRequest :=
  { service := "qobuz", isrc := "BAD", spotifyID := "sid9", itemID := "it9w" }

/-! ## Frame lemmas for the request transformers -/

@[simp]
theorem applyDefaults_trackName (env : Env) (req : DownloadRequest) :
    (applyDefaults env req).trackName = req.trackName := rfl

@[simp]
theorem applyDefaults_artistName (env : Env) (req : DownloadRequest) :
    (applyDefaults env req).artistName = req.artistName := rfl

@[simp]
theorem applyDefaults_itemID (env : Env) (req : DownloadRequest) :
    (applyDefaults env req).itemID = req.itemID := rfl

@[simp]
theorem applyDefaults_spotifyID (env : Env) (req : DownloadRequest) :
    (applyDefaults env req).spotifyID = req.spotifyID := rfl

@[simp]
theorem applyDefaults_isrc (env : Env) (req : DownloadRequest) :
    (applyDefaults env req).isrc = req.isrc := rfl

@[simp]
theorem applyDefaults_albumName (env : Env) (req : DownloadRequest) :
    (applyDefaults env req).albumName = req.albumName := rfl

theorem applyDefaults_service (env : Env) (req : DownloadRequest) :
    (applyDefaults env req).service = if req.service = "" then "tidal" else req.service := rfl

@[simp]
theorem backfilled_trackName (env : Env) (req : DownloadRequest) :
    (backfilled env req).trackName = req.trackName := by
  unfold backfilled
  split_ifs
  · cases env.metadata (spotifyTrackURL req.spotifyID) <;> rfl
  · rfl

@[simp]
theorem backfilled_artistName (env : Env) (req : DownloadRequest) :
    (backfilled env req).artistName = req.artistName := by
  unfold backfilled
  split_ifs
  · cases env.metadata (spotifyTrackURL req.spotifyID) <;> rfl
  · rfl

@[simp]
theorem backfilled_service (env : Env) (req : DownloadRequest) :
    (backfilled env req).service = req.service := by
  unfold backfilled
  split_ifs
  · cases env.metadata (spotifyTrackURL req.spotifyID) <;> rfl
  · rfl

@[simp]
theorem backfilled_isrc (env : Env) (req : DownloadRequest) :
    (backfilled env req).isrc = req.isrc := by
  unfold backfilled
  split_ifs
  · cases env.metadata (spotifyTrackURL req.spotifyID) <;> rfl
  · rfl

@[simp]
theorem backfilled_spotifyID (env : Env) (req : DownloadRequest) :
    (backfilled env req).spotifyID = req.spotifyID := by
  unfold backfilled
  split_ifs
  · cases env.metadata (spotifyTrackURL req.spotifyID) <;> rfl
  · rfl

/-! ## Claim C1 -/

/-- Claim C1 counterexample: the request has non-empty track and artist
names and a file of size exactly 100 KiB (102400 bytes, hence "at least
100 KiB") exists at the expected output path, yet `DownloadTrack` does not
report `AlreadyExists` and does invoke a provider strategy — the code's
guard is strictly greater than 100 KiB. -/
theorem c1_counterexample :
    envC1.fs (expectedPath envC1 (backfilled envC1 (applyDefaults envC1 reqC1))) =
      some 102400 ∧
    (102400 : Int) ≤ 102400 ∧
    reqC1.trackName ≠ "" ∧ reqC1.artistName ≠ "" ∧
    (DownloadTrack envC1 reqC1).resp.alreadyExists = false ∧
    (DownloadTrack envC1 reqC1).resp.success = true ∧
    (DownloadTrack envC1 reqC1).trace.any Event.isProviderCall = true :=
  ⟨by decide, by decide, by decide, by decide, by decide, by decide, by decide⟩

/-- Claim C1 as amended: when the request passes the initial qobuz
validation, both names are non-empty, and the file at the expected output
path is strictly larger than 100 KiB, `DownloadTrack` marks the item
Skipped and returns `Success=true`, `AlreadyExists=true` and that path,
invoking no provider strategy.  (`DownloadTrack` is a pure function of
`env`, so a second call with the file still present returns the same
`AlreadyExists=true` response.) -/
theorem c1_amended (env : Env) (req0 : DownloadRequest)
    (h1 : req0.trackName ≠ "") (h2 : req0.artistName ≠ "")
    (hq : ¬ earlyQobuzReject req0)
    (hfs : fileLargerThan env.fs
      (expectedPath env (backfilled env (applyDefaults env req0))) 102400 = true) :
    (DownloadTrack env req0).resp =
      { success := true, message := "File already exists",
        file := expectedPath env (backfilled env (applyDefaults env req0)),
        error := "", alreadyExists := true,
        itemID := resolvedItemID env (applyDefaults env req0) } ∧
    (DownloadTrack env req0).goErr = none ∧
    (DownloadTrack env req0).trace.any Event.isProviderCall = false ∧
    Event.skipItem (resolvedItemID env (applyDefaults env req0))
      (expectedPath env (backfilled env (applyDefaults env req0)))
      ∈ (DownloadTrack env req0).trace := by
  unfold DownloadTrack
  rw [if_neg hq]
  unfold afterRegister
  simp only [backfilled_trackName, applyDefaults_trackName, backfilled_artistName,
    applyDefaults_artistName]
  rw [if_pos (And.intro h1 h2), if_pos hfs]
  refine ⟨rfl, rfl, ?_, ?_⟩
  · unfold backfillEvents
    simp only [List.any_append, List.any_cons, List.any_nil, Event.isProviderCall]
    split_ifs <;> rfl
  · simp [backfillEvents, List.mem_append]

/-- Witness for the amended C1 at a concrete 200000-byte file. -/
theorem c1_amended_witness :
    (DownloadTrack envC1w reqC1).resp =
      { success := true, message := "File already exists",
        file := expectedPath envC1w (backfilled envC1w (applyDefaults envC1w reqC1)),
        error := "", alreadyExists := true,
        itemID := resolvedItemID envC1w (applyDefaults envC1w reqC1) } ∧
    (DownloadTrack envC1w reqC1).goErr = none ∧
    (DownloadTrack envC1w reqC1).trace.any Event.isProviderCall = false ∧
    Event.skipItem (resolvedItemID envC1w (applyDefaults envC1w reqC1))
      (expectedPath envC1w (backfilled envC1w (applyDefaults envC1w reqC1)))
      ∈ (DownloadTrack envC1w reqC1).trace :=
  c1_amended envC1w reqC1 (by decide) (by decide) (by decide) (by decide)

/-! ## Claim C5 -/

/-- Claim C5: a qobuz request with neither ISRC nor Spotify ID fails
immediately with the validation error, with an empty effect trace: no
queue registration, no I/O, no provider call. -/
theorem c5_theorem (env : Env) (req : DownloadRequest)
    (hs : req.service = "qobuz") (hi : req.isrc = "") (hid : req.spotifyID = "") :
    (DownloadTrack env req).resp = mkErrorResponse "Spotify ID is required for Qobuz" ∧
    (DownloadTrack env req).goErr = some "spotify ID is required for Qobuz" ∧
    (DownloadTrack env req).trace = [] := by
  unfold DownloadTrack
  rw [if_pos ⟨hs, hi, hid⟩]
  exact ⟨rfl, rfl, rfl⟩

/-- Witness for C5 at a concrete request. -/
theorem c5_witness :
    (DownloadTrack envBase reqC5).resp = mkErrorResponse "Spotify ID is required for Qobuz" ∧
    (DownloadTrack envBase reqC5).goErr = some "spotify ID is required for Qobuz" ∧
    (DownloadTrack envBase reqC5).trace = [] :=
  c5_theorem envBase reqC5 rfl rfl rfl

/-! ## Error-shape helper lemmas -/

theorem string_append_ne_empty (s t : String) (h : s ≠ "") : s ++ t ≠ "" := by
  intro he
  apply h
  apply String.ext
  have hd := congrArg String.data he
  rw [String.data_append] at hd
  have hs : s.data = [] := (List.append_eq_nil.mp hd).1
  simpa using hs

theorem qobuz_early_resp (env : Env) (req : DownloadRequest) {resp : DownloadResponse}
    {g : String} {evs : List Event}
    (h : qobuzDispatch env req = .early resp g evs) :
    resp.success = false ∧ resp.error ≠ "" := by
  simp only [qobuzDispatch] at h
  by_cases hc :
      (if req.isrc.length ≠ 12 ∨ isValidISRC req.isrc = false then "" else req.isrc) = "" ∧
        req.spotifyID ≠ ""
  · rw [if_pos hc] at h
    rcases hsl : env.songlinkDeezerURL req.spotifyID with e | durl <;> rw [hsl] at h <;>
      dsimp only at h
    · cases h
      exact ⟨rfl, string_append_ne_empty _ _ (by decide)⟩
    · rcases hdz : env.deezerISRC durl with e | d <;> rw [hdz] at h <;> dsimp only at h
      · cases h
        exact ⟨rfl, string_append_ne_empty _ _ (by decide)⟩
      · by_cases hdd : d = ""
        · rw [if_pos hdd] at h
          cases h
          exact ⟨rfl, by decide⟩
        · rw [if_neg hdd] at h
          simp [runProvider, prependEvents] at h
  · rw [if_neg hc] at h
    by_cases hd0 :
        (if req.isrc.length ≠ 12 ∨ isValidISRC req.isrc = false then "" else req.isrc) = ""
    · rw [if_pos hd0] at h
      cases h
      exact ⟨rfl, by decide⟩
    · rw [if_neg hd0] at h
      simp [runProvider] at h

theorem dispatch_early_resp (env : Env) (req : DownloadRequest) {resp : DownloadResponse}
    {g : String} {evs : List Event}
    (h : dispatchStrategy env req = .early resp g evs) :
    resp.success = false ∧ resp.error ≠ "" := by
  unfold dispatchStrategy at h
  split_ifs at h with h1 h2 h3 h4 h5 h6 h7 h8 h9 h10
  all_goals
    first
    | (exact qobuz_early_resp env req h)
    | (exfalso; unfold runProvider at h; exact Dispatch.noConfusion h)
    | (cases h
       refine ⟨rfl, ?_⟩
       first
       | decide
       | exact string_append_ne_empty _ _ (by decide))

theorem runDispatchOutcome_shape (env : Env) (id : String) (req : DownloadRequest) :
    ((runDispatchOutcome env id req).resp.success = false ∧
        (runDispatchOutcome env id req).resp.error ≠ "") ∨
    ((runDispatchOutcome env id req).resp.success = true ∧
        (runDispatchOutcome env id req).resp.alreadyExists = true) ∨
    ((runDispatchOutcome env id req).resp.success = true ∧
        (runDispatchOutcome env id req).resp.alreadyExists = false) := by
  unfold runDispatchOutcome
  rcases hd : dispatchStrategy env req with ⟨resp, g, evs⟩ | ⟨f, err, evs⟩ <;> dsimp only
  · left
    exact dispatch_early_resp env req hd
  · cases err with
    | some e =>
        left
        exact ⟨rfl, string_append_ne_empty "Download failed: " e (by decide)⟩
    | none =>
        by_cases hex : strStartsWith f "EXISTS:" = true
        · right; left
          dsimp only
          rw [if_pos hex]
          exact ⟨rfl, rfl⟩
        · right; right
          dsimp only
          rw [if_neg hex]
          exact ⟨rfl, rfl⟩

/-! ## Claim C7 -/

/-- Claim C7: every `DownloadTrack` response falls into one of the three
mutually exclusive shapes — failure with a non-empty error, success via an
existing file, success fresh — and when the provider strategy succeeds with
an `EXISTS:`-prefixed path, the item is marked Skipped and the response is
`Success=true`, `AlreadyExists=true` with the prefix stripped. -/
theorem c7_theorem :
    (∀ (env : Env) (req0 : DownloadRequest),
      ((DownloadTrack env req0).resp.success = false ∧
          (DownloadTrack env req0).resp.error ≠ "") ∨
      ((DownloadTrack env req0).resp.success = true ∧
          (DownloadTrack env req0).resp.alreadyExists = true) ∨
      ((DownloadTrack env req0).resp.success = true ∧
          (DownloadTrack env req0).resp.alreadyExists = false)) ∧
    (∀ (env : Env) (req0 : DownloadRequest) (f : String) (evs : List Event),
      ¬ earlyQobuzReject req0 →
      ¬ precheckHit env (backfilled env (applyDefaults env req0)) →
      dispatchStrategy env (backfilled env (applyDefaults env req0)) = .ran f none evs →
      strStartsWith f "EXISTS:" = true →
      (DownloadTrack env req0).resp =
        { success := true, message := "File already exists", file := strDrop f 7,
          error := "", alreadyExists := true,
          itemID := resolvedItemID env (applyDefaults env req0) } ∧
      Event.skipItem (resolvedItemID env (applyDefaults env req0)) (strDrop f 7)
        ∈ (DownloadTrack env req0).trace) := by
  constructor
  · intro env req0
    unfold DownloadTrack
    split_ifs with hq
    · left
      exact ⟨rfl, by decide⟩
    · simp only [afterRegister]
      split_ifs with hn hs
      · right; left
        exact ⟨rfl, rfl⟩
      · exact runDispatchOutcome_shape env _ _
      · exact runDispatchOutcome_shape env _ _
  · intro env req0 f evs hq hns hd hex
    unfold DownloadTrack
    rw [if_neg hq]
    simp only [afterRegister]
    by_cases hn : (backfilled env (applyDefaults env req0)).trackName ≠ "" ∧
        (backfilled env (applyDefaults env req0)).artistName ≠ ""
    · rw [if_pos hn]
      have hfl : ¬ (fileLargerThan env.fs
          (expectedPath env (backfilled env (applyDefaults env req0))) 102400 = true) :=
        fun hcontra => hns ⟨hn.1, hn.2, hcontra⟩
      rw [if_neg hfl]
      unfold runDispatchOutcome
      rw [hd]
      dsimp only
      constructor
      · simp [hex]
      · simp [hex, List.mem_append]
    · rw [if_neg hn]
      unfold runDispatchOutcome
      rw [hd]
      dsimp only
      constructor
      · simp [hex]
      · simp [hex, List.mem_append]

/-- Witness for C7 at a concrete `EXISTS:`-prefixed provider result. -/
theorem c7_witness :
    (DownloadTrack envC7 reqC7).resp =
      { success := true, message := "File already exists",
        file := strDrop "EXISTS:/out/x.flac" 7, error := "", alreadyExists := true,
        itemID := resolvedItemID envC7 (applyDefaults envC7 reqC7) } ∧
    Event.skipItem (resolvedItemID envC7 (applyDefaults envC7 reqC7))
      (strDrop "EXISTS:/out/x.flac" 7) ∈ (DownloadTrack envC7 reqC7).trace :=
  c7_theorem.2 envC7 reqC7 "EXISTS:/out/x.flac"
    [Event.providerCall (ProviderCall.tidalFallbackBySpotifyID "sid7")]
    (by decide) (by decide) (by decide) (by decide)

/-! ## Claim C4 -/

theorem removeResult_irrelevant (env : Env) (g : String → Option String)
    (req0 : DownloadRequest) :
    DownloadTrack { env with removeResult := g } req0 = DownloadTrack env req0 := by
  cases env
  rfl

/-- Claim C4: when the provider strategy fails with a non-empty path that
does not carry the `EXISTS:` prefix and a file exists there, `DownloadTrack`
deletes that file before returning the failure (the item is marked Failed
first), and the outcome is identical for every possible result of the
delete — a delete failure is only logged, never escalated. -/
theorem c4_theorem (env : Env) (req0 : DownloadRequest) (f e : String)
    (evs : List Event) (sz : Int)
    (hq : ¬ earlyQobuzReject req0)
    (hns : ¬ precheckHit env (backfilled env (applyDefaults env req0)))
    (hd : dispatchStrategy env (backfilled env (applyDefaults env req0)) = .ran f (some e) evs)
    (hf : f ≠ "") (hp : strStartsWith f "EXISTS:" = false)
    (hex : env.fs f = some sz) :
    Event.removeFile f ∈ (DownloadTrack env req0).trace ∧
    Event.failItem (resolvedItemID env (applyDefaults env req0)) ("Download failed: " ++ e)
      ∈ (DownloadTrack env req0).trace ∧
    (DownloadTrack env req0).resp =
      { success := false, message := "", file := "", error := "Download failed: " ++ e,
        alreadyExists := false, itemID := resolvedItemID env (applyDefaults env req0) } ∧
    (DownloadTrack env req0).goErr = some e ∧
    (∀ g : String → Option String,
      DownloadTrack { env with removeResult := g } req0 = DownloadTrack env req0) := by
  refine ⟨?_, ?_, ?_, ?_, fun g => removeResult_irrelevant env g req0⟩
  all_goals
    unfold DownloadTrack
    rw [if_neg hq]
    simp only [afterRegister]
  all_goals
    by_cases hn : (backfilled env (applyDefaults env req0)).trackName ≠ "" ∧
        (backfilled env (applyDefaults env req0)).artistName ≠ ""
  all_goals
    first
      | (rw [if_pos hn]
         have hfl : ¬ (fileLargerThan env.fs
             (expectedPath env (backfilled env (applyDefaults env req0))) 102400 = true) :=
           fun hcontra => hns ⟨hn.1, hn.2, hcontra⟩
         rw [if_neg hfl])
      | rw [if_neg hn]
  all_goals
    unfold runDispatchOutcome
    rw [hd]
  all_goals
    first
      | rfl
      | (simp only []
         rw [if_pos (And.intro hf hp), hex]
         simp [List.mem_append])

/-- Witness for C4 at a concrete failing amazon download with a partial
file on disk. -/
theorem c4_witness :
    Event.removeFile "/out/partial.flac" ∈ (DownloadTrack envProvErr reqC4).trace ∧
    Event.failItem (resolvedItemID envProvErr (applyDefaults envProvErr reqC4))
      ("Download failed: " ++ "boom") ∈ (DownloadTrack envProvErr reqC4).trace ∧
    (DownloadTrack envProvErr reqC4).resp =
      { success := false, message := "", file := "",
        error := "Download failed: " ++ "boom", alreadyExists := false,
        itemID := resolvedItemID envProvErr (applyDefaults envProvErr reqC4) } ∧
    (DownloadTrack envProvErr reqC4).goErr = some "boom" ∧
    (∀ g : String → Option String,
      DownloadTrack { envProvErr with removeResult := g } reqC4 =
        DownloadTrack envProvErr reqC4) :=
  c4_theorem envProvErr reqC4 "/out/partial.flac" "boom"
    [Event.providerCall (ProviderCall.amazonByURL "http://a")] 5000
    (by decide) (by decide) (by decide) (by decide) (by decide) (by decide)

/-! ## Claim C3 -/

/-- Claim C3 counterexample: a request with an unknown service and no
caller-supplied `ItemID` registers a new queue item (`AddToQueue` runs)
before the "unknown service" error is returned. -/
theorem c3_counterexample :
    reqC3.itemID = "" ∧
    (DownloadTrack envBase reqC3).trace.any Event.isAddToQueue = true ∧
    (DownloadTrack envBase reqC3).goErr = some "unknown service: foo" ∧
    (DownloadTrack envBase reqC3).resp.error = "Unknown service: foo" :=
  ⟨by decide, by decide, by decide, by decide⟩

/-- Claim C3 as amended: a request whose defaulted service is none of
amazon / tidal / qobuz fails with the "Unknown service" error and invokes
no provider strategy and no resolution lookup — but the error is produced
at strategy dispatch, after a queue item has been registered (when no
`ItemID` was supplied) and started, not before registration. -/
theorem c3_amended (env : Env) (req0 : DownloadRequest)
    (h1 : (applyDefaults env req0).service ≠ "amazon")
    (h2 : (applyDefaults env req0).service ≠ "tidal")
    (h3 : (applyDefaults env req0).service ≠ "qobuz")
    (hns : ¬ precheckHit env (backfilled env (applyDefaults env req0))) :
    (DownloadTrack env req0).resp =
      mkErrorResponse ("Unknown service: " ++ (applyDefaults env req0).service) ∧
    (DownloadTrack env req0).goErr =
      some ("unknown service: " ++ (applyDefaults env req0).service) ∧
    (DownloadTrack env req0).trace.any Event.isProviderCall = false ∧
    (DownloadTrack env req0).trace.any Event.isSonglinkLookup = false ∧
    (req0.itemID = "" → (DownloadTrack env req0).trace.any Event.isAddToQueue = true) := by
  have hq : ¬ earlyQobuzReject req0 := by
    rintro ⟨hs, -, -⟩
    apply h3
    rw [applyDefaults_service, hs]
    decide
  have hd : dispatchStrategy env (backfilled env (applyDefaults env req0)) =
      .early (mkErrorResponse ("Unknown service: " ++ (applyDefaults env req0).service))
        ("unknown service: " ++ (applyDefaults env req0).service) [] := by
    unfold dispatchStrategy
    rw [backfilled_service, if_neg h1, if_neg h2, if_neg h3]
  unfold DownloadTrack
  rw [if_neg hq]
  simp only [afterRegister]
  by_cases hn : (backfilled env (applyDefaults env req0)).trackName ≠ "" ∧
      (backfilled env (applyDefaults env req0)).artistName ≠ ""
  · rw [if_pos hn]
    have hfl : ¬ (fileLargerThan env.fs
        (expectedPath env (backfilled env (applyDefaults env req0))) 102400 = true) :=
      fun hcontra => hns ⟨hn.1, hn.2, hcontra⟩
    rw [if_neg hfl]
    unfold runDispatchOutcome
    rw [hd]
    refine ⟨rfl, rfl, ?_, ?_, ?_⟩
    · simp only [backfillEvents]; split_ifs <;> rfl
    · simp only [backfillEvents]; split_ifs <;> rfl
    · intro h0
      rw [if_pos (show (applyDefaults env req0).itemID = "" from h0)]
      rfl
  · rw [if_neg hn]
    unfold runDispatchOutcome
    rw [hd]
    refine ⟨rfl, rfl, ?_, ?_, ?_⟩
    · simp only [backfillEvents]; split_ifs <;> rfl
    · simp only [backfillEvents]; split_ifs <;> rfl
    · intro h0
      rw [if_pos (show (applyDefaults env req0).itemID = "" from h0)]
      rfl

/-- Witness for the amended C3 at a concrete unknown-service request with
a caller-supplied item identifier. -/
theorem c3_witness :
    (DownloadTrack envBase reqC3w).resp =
      mkErrorResponse ("Unknown service: " ++ (applyDefaults envBase reqC3w).service) ∧
    (DownloadTrack envBase reqC3w).goErr =
      some ("unknown service: " ++ (applyDefaults envBase reqC3w).service) ∧
    (DownloadTrack envBase reqC3w).trace.any Event.isProviderCall = false ∧
    (DownloadTrack envBase reqC3w).trace.any Event.isSonglinkLookup = false ∧
    (reqC3w.itemID = "" →
      (DownloadTrack envBase reqC3w).trace.any Event.isAddToQueue = true) :=
  c3_amended envBase reqC3w (by decide) (by decide) (by decide) (by decide)

/-! ## Claim C9 -/

theorem matchISRC_eq_specPattern : ∀ l : List Char, matchISRCChars l = specPatternChars l := by
  intro l
  rcases l with - | ⟨c1, l⟩; · rfl
  rcases l with - | ⟨c2, l⟩; · rfl
  rcases l with - | ⟨c3, l⟩; · rfl
  rcases l with - | ⟨c4, l⟩; · rfl
  rcases l with - | ⟨c5, l⟩; · rfl
  rcases l with - | ⟨c6, l⟩; · rfl
  rcases l with - | ⟨c7, l⟩; · rfl
  rcases l with - | ⟨c8, l⟩; · rfl
  rcases l with - | ⟨c9, l⟩; · rfl
  rcases l with - | ⟨c10, l⟩; · rfl
  rcases l with - | ⟨c11, l⟩; · rfl
  rcases l with - | ⟨c12, l⟩; · rfl
  rcases l with - | ⟨c13, l⟩; · rfl
  rfl

theorem matchISRC_length : ∀ l : List Char, matchISRCChars l = true → l.length = 12 := by
  intro l
  rcases l with - | ⟨c1, l⟩; · intro h; cases h
  rcases l with - | ⟨c2, l⟩; · intro h; cases h
  rcases l with - | ⟨c3, l⟩; · intro h; cases h
  rcases l with - | ⟨c4, l⟩; · intro h; cases h
  rcases l with - | ⟨c5, l⟩; · intro h; cases h
  rcases l with - | ⟨c6, l⟩; · intro h; cases h
  rcases l with - | ⟨c7, l⟩; · intro h; cases h
  rcases l with - | ⟨c8, l⟩; · intro h; cases h
  rcases l with - | ⟨c9, l⟩; · intro h; cases h
  rcases l with - | ⟨c10, l⟩; · intro h; cases h
  rcases l with - | ⟨c11, l⟩; · intro h; cases h
  rcases l with - | ⟨c12, l⟩; · intro h; cases h
  rcases l with - | ⟨c13, l⟩
  · intro _; rfl
  · intro h; cases h

theorem isValidISRC_eq_spec (s : String) : isValidISRC s = specValidISRC s := by
  unfold isValidISRC specValidISRC
  rw [← matchISRC_eq_specPattern]
  cases hm : matchISRCChars s.data with
  | false => simp
  | true =>
      have h12 : s.length = 12 := matchISRC_length s.data hm
      simp [h12]

theorem qobuz_songlink (env : Env) (req : DownloadRequest)
    (hsid : req.spotifyID ≠ "")
    (hinv : req.isrc.length ≠ 12 ∨ isValidISRC req.isrc = false) :
    (qobuzDispatch env req).events.any Event.isSonglinkLookup = true := by
  simp only [qobuzDispatch]
  rw [if_pos (And.intro (if_pos hinv) hsid)]
  rcases env.songlinkDeezerURL req.spotifyID with e | durl <;> dsimp only
  · rfl
  · rcases env.deezerISRC durl with e | d <;> dsimp only
    · rfl
    · by_cases hdd : d = ""
      · rw [if_pos hdd]; rfl
      · rw [if_neg hdd]; rfl

theorem trace_any_songlink (env : Env) (req0 : DownloadRequest)
    (hq : ¬ earlyQobuzReject req0)
    (hns : ¬ precheckHit env (backfilled env (applyDefaults env req0))) :
    (DownloadTrack env req0).trace.any Event.isSonglinkLookup =
      (dispatchStrategy env (backfilled env (applyDefaults env req0))).events.any
        Event.isSonglinkLookup := by
  unfold DownloadTrack
  rw [if_neg hq]
  simp only [afterRegister]
  by_cases hn : (backfilled env (applyDefaults env req0)).trackName ≠ "" ∧
      (backfilled env (applyDefaults env req0)).artistName ≠ ""
  · rw [if_pos hn]
    have hfl : ¬ (fileLargerThan env.fs
        (expectedPath env (backfilled env (applyDefaults env req0))) 102400 = true) :=
      fun hcontra => hns ⟨hn.1, hn.2, hcontra⟩
    rw [if_neg hfl]
    unfold runDispatchOutcome
    rcases hd : dispatchStrategy env (backfilled env (applyDefaults env req0)) with
      ⟨r2, g, evs⟩ | ⟨f, err, evs⟩
    · dsimp only [Dispatch.events]
      simp only [backfillEvents]
      split_ifs <;>
        simp [List.any_append, List.any_cons, List.any_nil, Event.isSonglinkLookup]
    · cases err with
      | some e =>
          dsimp only [Dispatch.events]
          simp only [backfillEvents]
          rcases env.fs f with - | szf <;> split_ifs <;>
            simp [List.any_append, List.any_cons, List.any_nil, Event.isSonglinkLookup]
      | none =>
          dsimp only [Dispatch.events]
          simp only [backfillEvents]
          split_ifs <;>
            simp [List.any_append, List.any_cons, List.any_nil, Event.isSonglinkLookup]
  · rw [if_neg hn]
    unfold runDispatchOutcome
    rcases hd : dispatchStrategy env (backfilled env (applyDefaults env req0)) with
      ⟨r2, g, evs⟩ | ⟨f, err, evs⟩
    · dsimp only [Dispatch.events]
      simp only [backfillEvents]
      split_ifs <;>
        simp [List.any_append, List.any_cons, List.any_nil, Event.isSonglinkLookup]
    · cases err with
      | some e =>
          dsimp only [Dispatch.events]
          simp only [backfillEvents]
          rcases env.fs f with - | szf <;> split_ifs <;>
            simp [List.any_append, List.any_cons, List.any_nil, Event.isSonglinkLookup]
      | none =>
          dsimp only [Dispatch.events]
          simp only [backfillEvents]
          split_ifs <;>
            simp [List.any_append, List.any_cons, List.any_nil, Event.isSonglinkLookup]

theorem DownloadTrack_resp_goErr (env : Env) (req0 : DownloadRequest)
    (hq : ¬ earlyQobuzReject req0)
    (hns : ¬ precheckHit env (backfilled env (applyDefaults env req0))) :
    (DownloadTrack env req0).resp =
      (runDispatchOutcome env (resolvedItemID env (applyDefaults env req0))
        (backfilled env (applyDefaults env req0))).resp ∧
    (DownloadTrack env req0).goErr =
      (runDispatchOutcome env (resolvedItemID env (applyDefaults env req0))
        (backfilled env (applyDefaults env req0))).goErr := by
  unfold DownloadTrack
  rw [if_neg hq]
  simp only [afterRegister]
  by_cases hn : (backfilled env (applyDefaults env req0)).trackName ≠ "" ∧
      (backfilled env (applyDefaults env req0)).artistName ≠ ""
  · rw [if_pos hn]
    have hfl : ¬ (fileLargerThan env.fs
        (expectedPath env (backfilled env (applyDefaults env req0))) 102400 = true) :=
      fun hcontra => hns ⟨hn.1, hn.2, hcontra⟩
    rw [if_neg hfl]
    exact ⟨rfl, rfl⟩
  · rw [if_neg hn]
    exact ⟨rfl, rfl⟩

/-- Claim C9 counterexample: a qobuz request whose caller-supplied ISRC is
invalid but whose Spotify ID is empty does not attempt the Deezer
derivation (no SongLink lookup occurs, although the environment's
resolution services work) — it fails with the ISRC-required error
instead. -/
theorem c9_counterexample :
    reqC9.isrc.length ≠ 12 ∧
    reqC9.spotifyID = "" ∧
    (DownloadTrack envC9 reqC9).trace.any Event.isSonglinkLookup = false ∧
    (DownloadTrack envC9 reqC9).resp =
      mkErrorResponse "ISRC is required for Qobuz (could not fetch from Deezer)" ∧
    (DownloadTrack envC9 reqC9).goErr = some "ISRC is required for Qobuz" :=
  ⟨by decide, by decide, by decide, by decide, by decide⟩

/-- Claim C9 as amended: `isValidISRC` accepts exactly the 12-character
strings matching the spec pattern `[A-Z]{2}[A-Z0-9]{3}\d{7}`; in the qobuz
path an invalid caller ISRC is discarded and the Deezer derivation is
attempted — but only when a Spotify ID is present; with an empty Spotify ID
the call fails with the ISRC-required error and no Deezer lookup. -/
theorem c9_amended :
    (∀ s, isValidISRC s = specValidISRC s) ∧
    (∀ (env : Env) (req0 : DownloadRequest),
      req0.service = "qobuz" → req0.spotifyID ≠ "" →
      (req0.isrc.length ≠ 12 ∨ isValidISRC req0.isrc = false) →
      ¬ precheckHit env (backfilled env (applyDefaults env req0)) →
      (DownloadTrack env req0).trace.any Event.isSonglinkLookup = true) ∧
    (∀ (env : Env) (req0 : DownloadRequest),
      req0.service = "qobuz" → req0.spotifyID = "" → req0.isrc ≠ "" →
      (req0.isrc.length ≠ 12 ∨ isValidISRC req0.isrc = false) →
      ¬ precheckHit env (backfilled env (applyDefaults env req0)) →
      (DownloadTrack env req0).trace.any Event.isSonglinkLookup = false ∧
      (DownloadTrack env req0).resp =
        mkErrorResponse "ISRC is required for Qobuz (could not fetch from Deezer)" ∧
      (DownloadTrack env req0).goErr = some "ISRC is required for Qobuz") := by
  refine ⟨isValidISRC_eq_spec, ?_, ?_⟩
  · intro env req0 hs hsid hinv hns
    have hq : ¬ earlyQobuzReject req0 := fun h => hsid h.2.2
    have hsvc : (backfilled env (applyDefaults env req0)).service = "qobuz" := by
      rw [backfilled_service, applyDefaults_service, hs]; decide
    have hd : dispatchStrategy env (backfilled env (applyDefaults env req0)) =
        qobuzDispatch env (backfilled env (applyDefaults env req0)) := by
      unfold dispatchStrategy
      rw [hsvc, if_neg (by decide), if_neg (by decide), if_pos rfl]
    rw [trace_any_songlink env req0 hq hns, hd]
    apply qobuz_songlink
    · simp only [backfilled_spotifyID, applyDefaults_spotifyID]; exact hsid
    · simp only [backfilled_isrc, applyDefaults_isrc]; exact hinv
  · intro env req0 hs hsid hne hinv hns
    have hq : ¬ earlyQobuzReject req0 := fun h => hne h.2.1
    have hsvc : (backfilled env (applyDefaults env req0)).service = "qobuz" := by
      rw [backfilled_service, applyDefaults_service, hs]; decide
    have hinv2 : (backfilled env (applyDefaults env req0)).isrc.length ≠ 12 ∨
        isValidISRC (backfilled env (applyDefaults env req0)).isrc = false := by
      simp only [backfilled_isrc, applyDefaults_isrc]; exact hinv
    have hd : dispatchStrategy env (backfilled env (applyDefaults env req0)) =
        .early (mkErrorResponse "ISRC is required for Qobuz (could not fetch from Deezer)")
          "ISRC is required for Qobuz" [] := by
      unfold dispatchStrategy
      rw [hsvc, if_neg (by decide), if_neg (by decide), if_pos rfl]
      simp only [qobuzDispatch]
      rw [if_neg (by
        rintro ⟨-, hc⟩
        apply hc
        simp only [backfilled_spotifyID, applyDefaults_spotifyID]
        exact hsid)]
      rw [if_pos (if_pos hinv2)]
    have hrg := DownloadTrack_resp_goErr env req0 hq hns
    refine ⟨?_, ?_, ?_⟩
    · rw [trace_any_songlink env req0 hq hns, hd]; rfl
    · rw [hrg.1]; unfold runDispatchOutcome; rw [hd]
    · rw [hrg.2]; unfold runDispatchOutcome; rw [hd]

/-- Witness for the amended C9: a concrete invalid ISRC with a Spotify ID
does trigger the SongLink lookup, and a concrete valid ISRC satisfies both
the source regex and the spec pattern. -/
theorem c9_witness :
    (DownloadTrack envC9 reqC9w).trace.any Event.isSonglinkLookup = true ∧
    isValidISRC "USABC1234567" = specValidISRC "USABC1234567" :=
  ⟨c9_amended.2.1 envC9 reqC9w (by decide) (by decide) (by decide) (by decide),
   c9_amended.1 "USABC1234567"⟩

/-! ## Dispatch-event classification -/

theorem qobuz_events_external (env : Env) (req : DownloadRequest) :
    (qobuzDispatch env req).events.all Event.isExternalCall = true := by
  simp only [qobuzDispatch]
  by_cases hc :
      (if req.isrc.length ≠ 12 ∨ isValidISRC req.isrc = false then "" else req.isrc) = "" ∧
        req.spotifyID ≠ ""
  · rw [if_pos hc]
    rcases env.songlinkDeezerURL req.spotifyID with e | durl <;> dsimp only
    · rfl
    · rcases env.deezerISRC durl with e | d <;> dsimp only
      · rfl
      · by_cases hdd : d = ""
        · rw [if_pos hdd]; rfl
        · rw [if_neg hdd]; rfl
  · rw [if_neg hc]
    by_cases hd0 :
        (if req.isrc.length ≠ 12 ∨ isValidISRC req.isrc = false then "" else req.isrc) = ""
    · rw [if_pos hd0]; rfl
    · rw [if_neg hd0]; rfl

theorem dispatch_events_external (env : Env) (req : DownloadRequest) :
    (dispatchStrategy env req).events.all Event.isExternalCall = true := by
  unfold dispatchStrategy
  split_ifs
  all_goals first | (exact qobuz_events_external env req) | rfl

theorem no_metadataFetch_of_external (l : List Event)
    (h : l.all Event.isExternalCall = true) :
    l.any Event.isMetadataFetch = false := by
  induction l with
  | nil => rfl
  | cons e l ih =>
      rw [List.all_cons, Bool.and_eq_true] at h
      rw [List.any_cons, ih h.2, Bool.or_false]
      rcases h with ⟨h1, -⟩
      cases e <;> first | rfl | simp_all [Event.isExternalCall]

theorem untouched_of_external (id : String) (l : List Event)
    (h : l.all Event.isExternalCall = true) :
    ∀ e ∈ l, touchesItem id e = false := by
  intro e he
  have hext : Event.isExternalCall e = true := by
    rw [List.all_eq_true] at h
    exact h e he
  cases e <;> first | rfl | simp_all [Event.isExternalCall]

/-! ## Claim C8 -/

theorem applyBackfill_emptyMeta (req : DownloadRequest) :
    applyBackfill req ({} : TrackMeta) = req := by
  cases req
  simp [applyBackfill]

/-- Claim C8: the Spotify metadata backfill only fills absent fields —
every non-empty (or non-zero) request field keeps its value, all other
fields are untouched — it runs only when a Spotify ID is present and one of
the six descriptive fields is missing, and a failed fetch leaves the
request unchanged and does not abort the download (the call behaves exactly
as if the fetch had returned no usable fields). -/
theorem c8_theorem :
    (∀ (req : DownloadRequest) (t : TrackMeta),
      (req.copyright ≠ "" → (applyBackfill req t).copyright = req.copyright) ∧
      (req.publisher ≠ "" → (applyBackfill req t).publisher = req.publisher) ∧
      (req.spotifyTotalDiscs ≠ 0 →
        (applyBackfill req t).spotifyTotalDiscs = req.spotifyTotalDiscs) ∧
      (req.spotifyTotalTracks ≠ 0 →
        (applyBackfill req t).spotifyTotalTracks = req.spotifyTotalTracks) ∧
      (req.spotifyTrackNumber ≠ 0 →
        (applyBackfill req t).spotifyTrackNumber = req.spotifyTrackNumber) ∧
      (req.releaseDate ≠ "" → (applyBackfill req t).releaseDate = req.releaseDate) ∧
      (applyBackfill req t).trackName = req.trackName ∧
      (applyBackfill req t).artistName = req.artistName ∧
      (applyBackfill req t).albumName = req.albumName ∧
      (applyBackfill req t).service = req.service ∧
      (applyBackfill req t).isrc = req.isrc ∧
      (applyBackfill req t).spotifyID = req.spotifyID ∧
      (applyBackfill req t).outputDir = req.outputDir ∧
      (applyBackfill req t).spotifyDiscNumber = req.spotifyDiscNumber) ∧
    (∀ (env : Env) (req : DownloadRequest),
      env.metadata (spotifyTrackURL req.spotifyID) = none → backfilled env req = req) ∧
    (∀ (env : Env) (req0 : DownloadRequest),
      (DownloadTrack env req0).trace.any Event.isMetadataFetch = true →
      backfillTrigger (applyDefaults env req0)) ∧
    (∀ (env : Env) (req0 : DownloadRequest),
      DownloadTrack { env with metadata := fun _ => none } req0 =
        DownloadTrack { env with metadata := fun _ => some {} } req0) := by
  refine ⟨?_, ?_, ?_, ?_⟩
  · intro req t
    refine ⟨?_, ?_, ?_, ?_, ?_, ?_, rfl, rfl, rfl, rfl, rfl, rfl, rfl, rfl⟩
    all_goals intro h; exact if_neg (fun hc => h hc.1)
  · intro env req hm
    unfold backfilled
    split_ifs with ht
    · rw [hm]
    · rfl
  · intro env req0 h
    by_contra hnt
    apply absurd h
    simp only [Bool.not_eq_true]
    have hbf : backfillEvents (applyDefaults env req0) = [] := by
      simp only [backfillEvents]; rw [if_neg hnt]
    unfold DownloadTrack
    by_cases hq : earlyQobuzReject req0
    · rw [if_pos hq]; rfl
    · rw [if_neg hq]
      simp only [afterRegister, hbf]
      unfold runDispatchOutcome
      rcases hd : dispatchStrategy env (backfilled env (applyDefaults env req0)) with
        ⟨r2, g, evs⟩ | ⟨f, err, evs⟩ <;>
        have hevs : evs.any Event.isMetadataFetch = false := by
          have hx := dispatch_events_external env (backfilled env (applyDefaults env req0))
          rw [hd] at hx
          exact no_metadataFetch_of_external evs hx
      · dsimp only
        split_ifs <;>
          simp [List.any_append, List.any_cons, List.any_nil, Event.isMetadataFetch, hevs]
      · cases err with
        | some e =>
            dsimp only
            rcases env.fs f with - | szf <;> split_ifs <;>
              simp [List.any_append, List.any_cons, List.any_nil,
                Event.isMetadataFetch, hevs]
        | none =>
            dsimp only
            split_ifs <;>
              simp [List.any_append, List.any_cons, List.any_nil,
                Event.isMetadataFetch, hevs]
  · intro env req0
    cases env
    unfold DownloadTrack
    by_cases hq : earlyQobuzReject req0
    · rw [if_pos hq, if_pos hq]
    · rw [if_neg hq, if_neg hq]
      simp only [afterRegister, backfilled, applyBackfill_emptyMeta, ite_self]
      rfl

/-- Witness for C8: concrete preservation of a caller-supplied copyright,
a concrete unchanged request on fetch failure, and a concrete trace whose
metadata fetch implies the trigger condition. -/
theorem c8_witness :
    (applyBackfill reqC8 metaC8).copyright = reqC8.copyright ∧
    backfilled envBase reqC8 = reqC8 ∧
    backfillTrigger (applyDefaults envBase reqC8) :=
  ⟨(c8_theorem.1 reqC8 metaC8).1 (by decide),
   c8_theorem.2.1 envBase reqC8 rfl,
   c8_theorem.2.2.1 envBase reqC8 (by decide)⟩

/-! ## Queue-model lemmas -/

theorem runQueue_append (m : String → Option ItemState) (t1 t2 : List Event) :
    runQueue m (t1 ++ t2) = runQueue (runQueue m t1) t2 :=
  List.foldl_append _ _ _ _

theorem runQueue_singleton (m : String → Option ItemState) (e : Event) :
    runQueue m [e] = applyQueueEvent m e := rfl

theorem applyQueueEvent_untouched (m : String → Option ItemState) (id : String) (e : Event)
    (h : touchesItem id e = false) : applyQueueEvent m e id = m id := by
  cases e <;>
    first
    | rfl
    | exact if_neg (Ne.symm (by simpa [touchesItem] using h))

theorem runQueue_untouched (m : String → Option ItemState) (tr : List Event) (id : String)
    (h : ∀ e ∈ tr, touchesItem id e = false) : runQueue m tr id = m id := by
  induction tr generalizing m with
  | nil => rfl
  | cons e tr ih =>
      have : runQueue m (e :: tr) = runQueue (applyQueueEvent m e) tr := rfl
      rw [this, ih (applyQueueEvent m e) (fun x hx => h x (List.mem_cons_of_mem e hx))]
      exact applyQueueEvent_untouched m id e (h e (List.mem_cons_self e tr))

theorem statFile_untouched (id p : String) :
    ∀ e ∈ [Event.statFile p], touchesItem id e = false := by
  intro e he
  rw [List.mem_singleton] at he
  subst he
  rfl

theorem setDownloading_untouched (id : String) (b : Bool) :
    ∀ e ∈ [Event.setDownloading b], touchesItem id e = false := by
  intro e he
  rw [List.mem_singleton] at he
  subst he
  rfl

theorem backfillEvents_untouched (id : String) (r : DownloadRequest) :
    ∀ e ∈ backfillEvents r, touchesItem id e = false := by
  intro e he
  simp only [backfillEvents] at he
  split_ifs at he
  · rw [List.mem_singleton] at he
    subst he
    rfl
  · cases he

theorem applyQueueEvent_fail_self (m : String → Option ItemState) (id msg : String)
    (h : m id = some ItemState.downloading) :
    applyQueueEvent m (.failItem id msg) id = some ItemState.failed := by
  simp [applyQueueEvent, h, ItemState.isTerminal]

theorem runQueue_sd_start (m : String → Option ItemState) (id : String)
    (h : m id = some ItemState.queued) :
    runQueue m [Event.setDownloading true, Event.startItem id] id =
      some ItemState.downloading := by
  show applyQueueEvent (applyQueueEvent m (.setDownloading true)) (.startItem id) id =
    some ItemState.downloading
  simp [applyQueueEvent, h]

theorem reg_value (env : Env) (req0 : DownloadRequest) (m0 : String → Option ItemState)
    (hm : m0 (resolvedItemID env (applyDefaults env req0)) =
      if req0.itemID = "" then none else some ItemState.queued) :
    runQueue m0
      (if (applyDefaults env req0).itemID = "" then
        [Event.addToQueue (resolvedItemID env (applyDefaults env req0))
          (applyDefaults env req0).trackName (applyDefaults env req0).artistName
          (applyDefaults env req0).albumName (applyDefaults env req0).spotifyID]
      else [])
      (resolvedItemID env (applyDefaults env req0)) = some ItemState.queued := by
  simp only [applyDefaults_itemID]
  by_cases hid : req0.itemID = ""
  · rw [if_pos hid] at hm ⊢
    rw [runQueue_singleton]
    simp [applyQueueEvent, hm]
  · rw [if_neg hid] at hm ⊢
    exact hm

/-! ## Claim C2 -/

/-- Claim C2 counterexample: an unknown-service request with a
caller-supplied item identifier returns an error while its queue item stays
Downloading — this error path does not mark the item Failed. -/
theorem c2_counterexample :
    (DownloadTrack envBase reqC2).goErr.isSome = true ∧
    (DownloadTrack envBase reqC2).trace.any Event.isFailItem = false ∧
    runQueue queueC2 (DownloadTrack envBase reqC2).trace "itemX" =
      some ItemState.downloading :=
  ⟨by decide, by decide, by decide⟩

/-- Claim C2 as amended: after the queue item has been registered and
started, an error coming out of a provider strategy run marks the item
Failed, but an error returned from inside the `switch` (missing Spotify ID,
unknown service, qobuz ISRC resolution failure) leaves the item in the
Downloading state. -/
theorem c2_amended (env : Env) (req0 : DownloadRequest)
    (m0 : String → Option ItemState)
    (hq : ¬ earlyQobuzReject req0)
    (hm : m0 (resolvedItemID env (applyDefaults env req0)) =
      if req0.itemID = "" then none else some ItemState.queued)
    (hns : ¬ precheckHit env (backfilled env (applyDefaults env req0))) :
    (∀ (f e : String) (evs : List Event),
      dispatchStrategy env (backfilled env (applyDefaults env req0)) =
        .ran f (some e) evs →
      runQueue m0 (DownloadTrack env req0).trace
        (resolvedItemID env (applyDefaults env req0)) = some ItemState.failed) ∧
    (∀ (r : DownloadResponse) (g : String) (evs : List Event),
      dispatchStrategy env (backfilled env (applyDefaults env req0)) = .early r g evs →
      runQueue m0 (DownloadTrack env req0).trace
        (resolvedItemID env (applyDefaults env req0)) = some ItemState.downloading) := by
  constructor
  · intro f e evs hd
    have hu_evs : ∀ x ∈ evs,
        touchesItem (resolvedItemID env (applyDefaults env req0)) x = false := by
      have hx := dispatch_events_external env (backfilled env (applyDefaults env req0))
      rw [hd] at hx
      exact untouched_of_external _ evs hx
    have hu_cl : ∀ x ∈ (if f ≠ "" ∧ strStartsWith f "EXISTS:" = false then
          Event.statFile f ::
            (match env.fs f with
             | some _ => [Event.removeFile f]
             | none => [])
        else []),
        touchesItem (resolvedItemID env (applyDefaults env req0)) x = false := by
      intro x hx
      split_ifs at hx
      · rcases hfs : env.fs f with - | s <;> rw [hfs] at hx <;> simp at hx
        · subst hx; rfl
        · rcases hx with rfl | rfl <;> rfl
      · cases hx
    unfold DownloadTrack
    rw [if_neg hq]
    simp only [afterRegister]
    by_cases hn : (backfilled env (applyDefaults env req0)).trackName ≠ "" ∧
        (backfilled env (applyDefaults env req0)).artistName ≠ ""
    · rw [if_pos hn]
      have hfl : ¬ (fileLargerThan env.fs
          (expectedPath env (backfilled env (applyDefaults env req0))) 102400 = true) :=
        fun hcontra => hns ⟨hn.1, hn.2, hcontra⟩
      rw [if_neg hfl]
      simp only [runDispatchOutcome]
      rw [hd]
      dsimp only
      simp only [runQueue_append]
      rw [runQueue_untouched _ _ _ (setDownloading_untouched _ false),
        runQueue_untouched _ _ _ hu_cl, runQueue_singleton]
      refine applyQueueEvent_fail_self _ _ _ ?_
      rw [runQueue_untouched _ _ _ hu_evs,
        runQueue_untouched _ _ _ (statFile_untouched _ _),
        runQueue_untouched _ _ _ (backfillEvents_untouched _ _)]
      exact runQueue_sd_start _ _ (reg_value env req0 m0 hm)
    · rw [if_neg hn]
      simp only [runDispatchOutcome]
      rw [hd]
      dsimp only
      simp only [runQueue_append]
      rw [runQueue_untouched _ _ _ (setDownloading_untouched _ false),
        runQueue_untouched _ _ _ hu_cl, runQueue_singleton]
      refine applyQueueEvent_fail_self _ _ _ ?_
      rw [runQueue_untouched _ _ _ hu_evs,
        runQueue_untouched _ _ _ (backfillEvents_untouched _ _)]
      exact runQueue_sd_start _ _ (reg_value env req0 m0 hm)
  · intro r g evs hd
    have hu_evs : ∀ x ∈ evs,
        touchesItem (resolvedItemID env (applyDefaults env req0)) x = false := by
      have hx := dispatch_events_external env (backfilled env (applyDefaults env req0))
      rw [hd] at hx
      exact untouched_of_external _ evs hx
    unfold DownloadTrack
    rw [if_neg hq]
    simp only [afterRegister]
    by_cases hn : (backfilled env (applyDefaults env req0)).trackName ≠ "" ∧
        (backfilled env (applyDefaults env req0)).artistName ≠ ""
    · rw [if_pos hn]
      have hfl : ¬ (fileLargerThan env.fs
          (expectedPath env (backfilled env (applyDefaults env req0))) 102400 = true) :=
        fun hcontra => hns ⟨hn.1, hn.2, hcontra⟩
      rw [if_neg hfl]
      simp only [runDispatchOutcome]
      rw [hd]
      dsimp only
      simp only [runQueue_append]
      rw [runQueue_untouched _ _ _ (setDownloading_untouched _ false),
        runQueue_untouched _ _ _ hu_evs,
        runQueue_untouched _ _ _ (statFile_untouched _ _),
        runQueue_untouched _ _ _ (backfillEvents_untouched _ _)]
      exact runQueue_sd_start _ _ (reg_value env req0 m0 hm)
    · rw [if_neg hn]
      simp only [runDispatchOutcome]
      rw [hd]
      dsimp only
      simp only [runQueue_append]
      rw [runQueue_untouched _ _ _ (setDownloading_untouched _ false),
        runQueue_untouched _ _ _ hu_evs,
        runQueue_untouched _ _ _ (backfillEvents_untouched _ _)]
      exact runQueue_sd_start _ _ (reg_value env req0 m0 hm)

/-- Witness for the amended C2: a concrete failing provider run whose
queue item ends in the Failed state. -/
theorem c2_witness :
    runQueue queueC2w (DownloadTrack envProvErr reqC2w).trace
      (resolvedItemID envProvErr (applyDefaults envProvErr reqC2w)) =
      some ItemState.failed :=
  (c2_amended envProvErr reqC2w queueC2w (by decide) (by decide) (by decide)).1
    "/out/partial.flac" "boom"
    [Event.providerCall (ProviderCall.tidalFallbackByURL "http://svc")]
    (by decide)

/-! ## Claim C6 -/

theorem foldl_set_length (comps : List (Nat × CheckFileExistenceResult))
    (acc : List (Option CheckFileExistenceResult)) :
    (comps.foldl (fun a p => a.set p.1 (some p.2)) acc).length = acc.length := by
  induction comps generalizing acc with
  | nil => rfl
  | cons p comps ih => rw [List.foldl_cons, ih, List.length_set]

theorem foldl_set_no_write (comps : List (Nat × CheckFileExistenceResult))
    (acc : List (Option CheckFileExistenceResult)) (j : Nat)
    (h : ∀ p ∈ comps, p.1 ≠ j) :
    (comps.foldl (fun a p => a.set p.1 (some p.2)) acc)[j]? = acc[j]? := by
  induction comps generalizing acc with
  | nil => rfl
  | cons p comps ih =>
      rw [List.foldl_cons, ih _ (fun q hq => h q (List.mem_cons_of_mem p hq)),
        List.getElem?_set_ne (h p (List.mem_cons_self p comps))]

theorem foldl_set_write (comps : List (Nat × CheckFileExistenceResult))
    (acc : List (Option CheckFileExistenceResult)) (j : Nat)
    (w : CheckFileExistenceResult) (hj : j < acc.length)
    (hval : ∀ p ∈ comps, p.1 = j → p.2 = w)
    (hmem : j ∈ comps.map Prod.fst) :
    (comps.foldl (fun a p => a.set p.1 (some p.2)) acc)[j]? = some (some w) := by
  induction comps generalizing acc with
  | nil => cases hmem
  | cons p comps ih =>
      rw [List.foldl_cons]
      by_cases hjmem : j ∈ comps.map Prod.fst
      · exact ih _ (by rw [List.length_set]; exact hj)
          (fun q hq hq1 => hval q (List.mem_cons_of_mem p hq) hq1) hjmem
      · have hp1 : p.1 = j := by
          rw [List.map_cons, List.mem_cons] at hmem
          rcases hmem with h | h
          · exact h.symm
          · exact absurd h hjmem
        have hp2 : p.2 = w := hval p (List.mem_cons_self p comps) hp1
        rw [foldl_set_no_write comps _ j
          (fun q hq hq1 => hjmem (hq1 ▸ List.mem_map_of_mem Prod.fst hq)), hp1, hp2]
        exact List.getElem?_set_self hj

theorem assemble_eq (n : Nat) (f : Nat → CheckFileExistenceResult)
    (comps : List (Nat × CheckFileExistenceResult))
    (hfst : List.Perm (comps.map Prod.fst) (List.range n))
    (hval : ∀ p ∈ comps, p.2 = f p.1) :
    assemble n comps = (List.range n).map (fun i => some (f i)) := by
  apply List.ext_getElem?
  intro j
  by_cases hj : j < n
  · rw [assemble, foldl_set_write comps _ j (f j)
      (by rw [List.length_replicate]; exact hj)
      (fun p hp h1 => by rw [hval p hp, h1])
      (hfst.mem_iff.mpr (List.mem_range.mpr hj))]
    rw [List.getElem?_map, List.getElem?_range hj]
    rfl
  · rw [List.getElem?_eq_none, List.getElem?_eq_none]
    · rw [List.length_map, List.length_range]
      exact Nat.le_of_not_lt hj
    · rw [assemble, foldl_set_length, List.length_replicate]
      exact Nat.le_of_not_lt hj

theorem CheckFilesExistence_map (env : Env) (outputDir : String)
    (tracks : List CheckFileExistenceRequest) :
    CheckFilesExistence env outputDir tracks =
      tracks.map (fun t => (checkOne env (env.normalizePath outputDir) t).1) := by
  unfold CheckFilesExistence
  split_ifs with h
  · rw [h]; rfl
  · rfl

theorem range_map_getD (tracks : List CheckFileExistenceRequest)
    (g : CheckFileExistenceRequest → Option CheckFileExistenceResult) :
    (List.range tracks.length).map (fun i => g (tracks.getD i {})) =
      tracks.map g := by
  apply List.ext_getElem?
  intro j
  by_cases hj : j < tracks.length
  · rw [List.getElem?_map, List.getElem?_range hj, List.getElem?_map,
      List.getElem?_eq_getElem hj]
    simp [List.getD_eq_getElem?_getD, List.getElem?_eq_getElem hj]
  · rw [List.getElem?_eq_none, List.getElem?_eq_none]
    · rw [List.length_map]
      exact Nat.le_of_not_lt hj
    · rw [List.length_map, List.length_range]
      exact Nat.le_of_not_lt hj

/-- Claim C6: `CheckFilesExistence` over N tracks returns exactly N results
with `results[i]` the check of `tracks[i]`; the index-tagged collection
(`assemble`) yields that same list for every completion order (any
permutation of the per-index results); a track with an empty name or artist
yields `Exists=false` with no filesystem stat; the empty input yields the
empty output. -/
theorem c6_theorem (env : Env) (outputDir : String)
    (tracks : List CheckFileExistenceRequest) :
    (CheckFilesExistence env outputDir tracks).length = tracks.length ∧
    CheckFilesExistence env outputDir tracks =
      tracks.map (fun t => (checkOne env (env.normalizePath outputDir) t).1) ∧
    (∀ completions : List (Nat × CheckFileExistenceResult),
      List.Perm (completions.map Prod.fst) (List.range tracks.length) →
      (∀ p ∈ completions,
        p.2 = (checkOne env (env.normalizePath outputDir) (tracks.getD p.1 {})).1) →
      assemble tracks.length completions =
        (CheckFilesExistence env outputDir tracks).map some) ∧
    (∀ t ∈ tracks, (t.trackName = "" ∨ t.artistName = "") →
      checkOne env (env.normalizePath outputDir) t =
        ({ spotifyID := t.spotifyID, trackName := t.trackName,
           artistName := t.artistName }, false)) ∧
    CheckFilesExistence env outputDir [] = [] := by
  refine ⟨?_, CheckFilesExistence_map env outputDir tracks, ?_, ?_, rfl⟩
  · rw [CheckFilesExistence_map]
    exact List.length_map _ _
  · intro comps hfst hval
    rw [assemble_eq tracks.length
      (fun i => (checkOne env (env.normalizePath outputDir) (tracks.getD i {})).1)
      comps hfst hval]
    rw [CheckFilesExistence_map, List.map_map]
    exact range_map_getD tracks
      (fun t => some ((checkOne env (env.normalizePath outputDir) t).1))
  · intro t _ ht
    unfold checkOne
    rw [if_pos ht]

/-- Witness for C6: three concrete tracks checked in a scrambled completion
order still assemble into input order; the empty-name track performs no
stat; the empty batch gives the empty result. -/
theorem c6_witness :
    assemble 3
      [(2, (checkOne envC6 "out" trkE).1), (0, (checkOne envC6 "out" trkA).1),
        (1, (checkOne envC6 "out" trkB).1)] =
      (CheckFilesExistence envC6 "out" [trkA, trkB, trkE]).map some ∧
    checkOne envC6 "out" trkE =
      ({ spotifyID := "s3", trackName := "", artistName := "Z" }, false) ∧
    CheckFilesExistence envC6 "out" [] = [] := by
  have h := c6_theorem envC6 "out" [trkA, trkB, trkE]
  refine ⟨?_, ?_, h.2.2.2.2⟩
  · exact h.2.2.1
      [(2, (checkOne envC6 "out" trkE).1), (0, (checkOne envC6 "out" trkA).1),
        (1, (checkOne envC6 "out" trkB).1)]
      (by decide) (by decide)
  · exact h.2.2.2.1 trkE (by decide) (by decide)

/-! ## Claim C10 -/

/-- Claim C10: after `Logout`, `IsAuthenticated` reports `false` for every
prior client state and every token-file outcome: `clearTokens` erases the
in-memory tokens before attempting file removal, so the client is
unauthenticated even when `Logout` returns an error. -/
theorem c10_theorem (env : AuthEnv) (s : SpotifyAuthState) :
    IsAuthenticated (Logout env s).1 = false := by
  unfold Logout clearTokens IsAuthenticated
  cases env.tokenPath <;> rfl

end SpotiFLAC
